import Mathlib

/-!
Verification of the dependency-resolution and build-descriptor logic of
`llama_toolchain/cli/api/build.py` (the `llama api build` subcommand),
shallowly embedded in Lean 4.

Conventions of the embedding:
* Python `Optional[str]` becomes `Option String`; Python truthiness of such a
  value (`if x and y`) is modelled by `truthy`, which is `false` exactly on
  `none` and `some ""`.
* The auxiliary-dependency `Dict[Api, ProviderSpec]` is insertion ordered;
  `get_dependencies` only iterates `dependencies.values()`, so the merge takes
  a `List ProviderSpec` in that iteration order.  The parser builds the dict
  itself, modelled as an insertion-ordered association list with in-place
  update on duplicate keys (`dictInsert`).
* `get_dependencies` in the source binds `pip_packages` to the root spec's own
  list object and calls `pip_packages.extend(...)` on it, so the call mutates
  the root spec.  The embedding `get_dependencies_run` therefore returns both
  the result of the call (the raised `ValueError` becoming `Except.error`) and
  the state of the root spec after the call.
-/

/-- Modelled from the spec: `AdapterSpec` lives in
`llama_toolchain/distribution/datatypes.py`, which is not part of the sources
here.  Per the spec's data model, an adapter sub-spec carries its own list of
package requirements. -/
structure AdapterSpec where
  pip_packages : List String
deriving DecidableEq

/-- Modelled from the spec: `ProviderSpec` variants live in
`llama_toolchain/distribution/datatypes.py`.  Per the spec's data model, a
provider spec is either *Inline* (a list of package requirements plus an
optional container base image) or *Remote/Adapter* (an optional adapter
sub-spec; never an image of its own). -/
inductive ProviderSpec where
  | inline (pip_packages : List String) (docker_image : Option String)
  | remote (adapter : Option AdapterSpec)
deriving DecidableEq

/-- Result type of the merge, from the source's `Dependencies` pydantic model. -/
structure Dependencies where
  pip_packages : List String
  docker_image : Option String
deriving DecidableEq

/-- The inner helper `_deps` of `get_dependencies`:
`InlineProviderSpec` yields `(pip_packages, docker_image)`, a remote spec with
an adapter yields `(adapter.pip_packages, None)`, and a remote spec without an
adapter yields `([], None)`. -/
def deps_extract : ProviderSpec → List String × Option String
  | ProviderSpec.inline pip_packages docker_image => (pip_packages, docker_image)
  | ProviderSpec.remote (some a) => (a.pip_packages, none)
  | ProviderSpec.remote none => ([], none)

/-- Python truthiness of an `Optional[str]`: falsy exactly on `None` and `""`. -/
def truthy : Option String → Bool
  | none => false
  | some s => if s = "" then false else true

/-- The loop of `get_dependencies`: for each auxiliary spec in iteration
order, first check `if docker_image and dep_docker_image` (raising on a
conflict, before the extend), then `pip_packages.extend(dep_pip_packages)`.
Returns the success flag together with the final state of the accumulating
list (which is the root spec's own list object in the source). -/
def mergeLoop (img : Option String) : List String → List ProviderSpec → Bool × List String
  | acc, [] => (true, acc)
  | acc, dep :: rest =>
      if truthy img && truthy (deps_extract dep).snd then (false, acc)
      else mergeLoop img (acc ++ (deps_extract dep).fst) rest

/-- Concatenation of the derived package lists of a sequence of specs. -/
def concatPkgs : List ProviderSpec → List String
  | [] => []
  | d :: rest => (deps_extract d).fst ++ concatPkgs rest

/-- Where the mutated `pip_packages` list lives inside the root spec: for an
inline spec it is the spec's own list, for a remote spec with an adapter it is
the adapter's list, and for a remote spec without an adapter the loop works on
a fresh `[]` so the spec is untouched. -/
def writeBackRoot : ProviderSpec → List String → ProviderSpec
  | ProviderSpec.inline _ docker_image, l => ProviderSpec.inline l docker_image
  | ProviderSpec.remote (some _), l => ProviderSpec.remote (some { pip_packages := l })
  | ProviderSpec.remote none, _ => ProviderSpec.remote none

/-- The message of the `ValueError` raised on an image conflict. -/
def conflictMsg : String := "You can only have the root provider specify a docker image"

/-- `get_dependencies(provider, dependencies)` together with the state of the
root `provider` after the call (reflecting that `pip_packages.extend` mutates
the root's own list).  The first component is the call's result: `Except.ok`
with the returned `Dependencies`, or `Except.error` for the raised
`ValueError`. -/
def get_dependencies_run (provider : ProviderSpec) (dependencies : List ProviderSpec) :
    Except String Dependencies × ProviderSpec :=
  let r := mergeLoop (deps_extract provider).snd (deps_extract provider).fst dependencies
  ((if r.fst then
      Except.ok { pip_packages := r.snd, docker_image := (deps_extract provider).snd }
    else Except.error conflictMsg),
   writeBackRoot provider r.snd)

/-- The value returned (or error raised) by `get_dependencies`. -/
def get_dependencies (provider : ProviderSpec) (dependencies : List ProviderSpec) :
    Except String Dependencies :=
  (get_dependencies_run provider dependencies).fst

/-- Whether an `Except` is a success. -/
def exceptIsOk : Except ε α → Bool
  | Except.ok _ => true
  | Except.error _ => false

theorem mergeLoop_no_img (img : Option String) (h : truthy img = false)
    (acc : List String) (l : List ProviderSpec) :
    mergeLoop img acc l = (true, acc ++ concatPkgs l) := by
  induction l generalizing acc with
  | nil => simp [mergeLoop, concatPkgs]
  | cons d rest ih => simp [mergeLoop, h, concatPkgs, ih]

theorem mergeLoop_fail_iff (img : Option String) (h : truthy img = true)
    (acc : List String) (l : List ProviderSpec) :
    (mergeLoop img acc l).fst = false ↔ ∃ d ∈ l, truthy (deps_extract d).snd = true := by
  induction l generalizing acc with
  | nil => simp [mergeLoop]
  | cons d rest ih =>
      by_cases hd : truthy (deps_extract d).snd = true
      · simp [mergeLoop, h, hd]
      · simp only [Bool.not_eq_true] at hd
        simp [mergeLoop, h, hd, ih]

theorem mergeLoop_ok_snd (img : Option String) (acc : List String) (l : List ProviderSpec)
    (h : (mergeLoop img acc l).fst = true) :
    (mergeLoop img acc l).snd = acc ++ concatPkgs l := by
  induction l generalizing acc with
  | nil => simp [mergeLoop, concatPkgs]
  | cons d rest ih =>
      by_cases hc : (truthy img && truthy (deps_extract d).snd) = true
      · simp [mergeLoop, hc] at h
      · simp only [mergeLoop, hc, if_false, Bool.false_eq_true] at h ⊢
        rw [ih _ h]
        simp [concatPkgs]

/-- C1: merge fails (with the conflicting-image `ValueError`) if and only if
the root-derived image and at least one auxiliary-derived image are both
non-empty (neither `None` nor `""`); when merge succeeds, the result's
`docker_image` equals the root-derived image (`none` when the root derives
none). -/
theorem merge_conflict_iff (root : ProviderSpec) (deps : List ProviderSpec) :
    (exceptIsOk (get_dependencies root deps) = false ↔
      truthy (deps_extract root).snd = true ∧ ∃ d ∈ deps, truthy (deps_extract d).snd = true)
    ∧ ∀ r, get_dependencies root deps = Except.ok r →
        r.docker_image = (deps_extract root).snd := by
  unfold get_dependencies get_dependencies_run
  by_cases himg : truthy (deps_extract root).snd = true
  · by_cases hfail : (mergeLoop (deps_extract root).snd (deps_extract root).fst deps).fst = true
    · constructor
      · simp only [hfail, if_true, exceptIsOk, himg, true_and]
        rw [← mergeLoop_fail_iff (deps_extract root).snd himg (deps_extract root).fst deps]
        simp [hfail]
      · intro r hr
        simp only [hfail, if_true, Except.ok.injEq] at hr
        rw [← hr]
    · simp only [Bool.not_eq_true] at hfail
      constructor
      · simp only [hfail, Bool.false_eq_true, if_false, exceptIsOk, himg, true_and]
        rw [← mergeLoop_fail_iff (deps_extract root).snd himg (deps_extract root).fst deps]
        simp [hfail]
      · intro r hr
        simp only [hfail, Bool.false_eq_true, if_false] at hr
        exact absurd hr (by simp)
  · simp only [Bool.not_eq_true] at himg
    rw [mergeLoop_no_img (deps_extract root).snd himg (deps_extract root).fst deps]
    constructor
    · simp [exceptIsOk, himg]
    · intro r hr
      simp only [if_true, Except.ok.injEq] at hr
      rw [← hr]

/-- Witness for C1 at a concrete conflicting input: an inline root with image
`"img"` against one auxiliary inline spec with image `"img2"` makes the merge
fail. -/
theorem merge_conflict_iff_witness :
    exceptIsOk (get_dependencies (ProviderSpec.inline ["x"] (some "img"))
      [ProviderSpec.inline [] (some "img2")]) = false :=
  (merge_conflict_iff (ProviderSpec.inline ["x"] (some "img"))
      [ProviderSpec.inline [] (some "img2")]).1.mpr
    ⟨by decide, ProviderSpec.inline [] (some "img2"), by simp, by decide⟩

/-- C2: whenever merge succeeds, the result's package sequence is the
root-derived package list followed by each auxiliary's derived package list in
iteration order, duplicates retained; derivation per spec variant is
`deps_extract`. -/
theorem merge_packages_order (root : ProviderSpec) (deps : List ProviderSpec)
    (r : Dependencies) (h : get_dependencies root deps = Except.ok r) :
    r.pip_packages = (deps_extract root).fst ++ concatPkgs deps := by
  unfold get_dependencies get_dependencies_run at h
  by_cases hfail : (mergeLoop (deps_extract root).snd (deps_extract root).fst deps).fst = true
  · simp only [hfail, if_true, Except.ok.injEq] at h
    rw [← h]
    exact mergeLoop_ok_snd (deps_extract root).snd (deps_extract root).fst deps hfail
  · simp only [Bool.not_eq_true] at hfail
    simp only [hfail, Bool.false_eq_true, if_false] at h
    exact absurd h (by simp)

/-- Witness for C2 at a concrete input in which the package `"b"` occurs both
in the root and in an auxiliary: the duplicate is retained and order is root
first, then auxiliaries in iteration order. -/
theorem merge_packages_order_witness :
    (Dependencies.mk ["a", "b", "b", "c"] none).pip_packages
      = (deps_extract (ProviderSpec.inline ["a", "b"] none)).fst
        ++ concatPkgs [ProviderSpec.inline ["b"] none,
            ProviderSpec.remote (some { pip_packages := ["c"] }),
            ProviderSpec.remote none] :=
  merge_packages_order (ProviderSpec.inline ["a", "b"] none)
    [ProviderSpec.inline ["b"] none,
     ProviderSpec.remote (some { pip_packages := ["c"] }),
     ProviderSpec.remote none]
    (Dependencies.mk ["a", "b", "b", "c"] none) (by rfl)

/-- C3 is false of the code: `get_dependencies` extends the root spec's own
`pip_packages` list, so after a call with root `inline ["a"] none` and one
auxiliary `inline ["b"] none` the root spec has become `inline ["a", "b"] none`
— not the unchanged `inline ["a"] none` the claim requires. -/
theorem merge_mutates_root_packages :
    (get_dependencies_run (ProviderSpec.inline ["a"] none)
        [ProviderSpec.inline ["b"] none]).snd
      = ProviderSpec.inline ["a", "b"] none
    ∧ decide (ProviderSpec.inline ["a", "b"] none = ProviderSpec.inline ["a"] none)
        = false := by
  exact ⟨by rfl, by rfl⟩

/-- C10: when the root derives no image, the merge never fails — no matter how
many auxiliaries declare images — and the result's image is `none`. -/
theorem merge_no_root_image (root : ProviderSpec) (deps : List ProviderSpec)
    (h : (deps_extract root).snd = none) :
    exceptIsOk (get_dependencies root deps) = true
    ∧ ∀ r, get_dependencies root deps = Except.ok r → r.docker_image = none := by
  have htr : truthy (deps_extract root).snd = false := by rw [h]; rfl
  unfold get_dependencies get_dependencies_run
  rw [mergeLoop_no_img (deps_extract root).snd htr (deps_extract root).fst deps]
  constructor
  · simp [exceptIsOk]
  · intro r hr
    simp only [if_true, Except.ok.injEq] at hr
    rw [← hr, h]

/-- Witness for C10: a root without an image merged against two auxiliaries
that both declare images succeeds (the two auxiliary images do not conflict
with each other). -/
theorem merge_no_root_image_witness :
    exceptIsOk (get_dependencies (ProviderSpec.remote none)
      [ProviderSpec.inline ["p"] (some "i1"),
       ProviderSpec.inline ["q"] (some "i2")]) = true :=
  (merge_no_root_image (ProviderSpec.remote none)
    [ProviderSpec.inline ["p"] (some "i1"),
     ProviderSpec.inline ["q"] (some "i2")] (by rfl)).1

/-- Lookup in an association list, mirroring Python dict indexing. -/
def alist_lookup {α : Type} : List (String × α) → String → Option α
  | [], _ => none
  | (k, v) :: rest, key => if k = key then some v else alist_lookup rest key

/-- Insertion into a Python dict: an existing key keeps its position and gets
the new value; a fresh key is appended at the end. -/
def dictInsert {α : Type} (key : String) (v : α) :
    List (String × α) → List (String × α)
  | [] => [(key, v)]
  | (k, w) :: rest =>
      if k = key then (key, v) :: rest else (k, w) :: dictInsert key v rest

/-- Membership of a string in a list of strings (Python `in` over the `Api`
enum member names). -/
def listContains : List String → String → Bool
  | [], _ => false
  | k :: rest, s => if k = s then true else listContains rest s

/-- Python `str.split(sep)` for a one-character separator: split at every
occurrence, keeping empty pieces, so `"".split(",") = [""]`. -/
def pySplit (sep : Char) : List Char → List (List Char)
  | [] => [[]]
  | c :: rest =>
      match pySplit sep rest with
      | [] => if c = sep then [[], []] else [[c]]
      | g :: gs => if c = sep then [] :: g :: gs else (c :: g) :: gs

/-- The whitespace characters Python `str.strip()` removes (ASCII part). -/
def isPySpace (c : Char) : Bool :=
  c = ' ' || c = '\t' || c = '\n' || c = '\r'

/-- Python `str.strip()`: remove whitespace from both ends. -/
def pyStrip (l : List Char) : List Char :=
  ((l.dropWhile isPySpace).reverse.dropWhile isPySpace).reverse

/-- `str.strip()` on `String`. -/
def pyStripS (s : String) : String := String.mk (pyStrip s.data)

/-- `str.split(sep)` on `String`, one-character separator. -/
def pySplitS (sep : Char) (s : String) : List String :=
  (pySplit sep s.data).map String.mk

/-- The external registry surface consumed by `parse_dependencies`: the member
names of the `Api` enum (`Api(api_str)` succeeds exactly on these) and
`api_providers()`, an API-name-indexed table of provider id → spec. -/
structure Registry where
  apiNames : List String
  providers : List (String × List (String × ProviderSpec))

/-- How a failure of `parse_dependencies` surfaces: `usageError` models
`parser.error(...)` (a usage message reported to the user), `internalFault`
models an uncaught exception (`ValueError` from tuple unpacking or from
`Api(api_str)`, `KeyError` from `all_providers[api]`). -/
inductive ParseError where
  | usageError (msg : String)
  | internalFault (msg : String)
deriving DecidableEq

/-- Whether a parse outcome is a usage error reported to the user. -/
def reportedAsUsage : Except ParseError (List (String × ProviderSpec)) → Bool
  | Except.error (ParseError.usageError _) => true
  | _ => false

/-- The loop of `parse_dependencies` over the comma-split entries: strip the
entry, skip it if blank, unpack `dep.split("=")` into exactly two parts
(`ValueError` otherwise), construct `Api(api_str)` (`ValueError` when the name
is not an enum member), strip the provider id, report a usage error via
`parser.error` when it is not registered for the API, and otherwise record
`deps[api] = all_providers[api][provider]`. -/
def parseGo (reg : Registry) : List String → List (String × ProviderSpec) →
    Except ParseError (List (String × ProviderSpec))
  | [], deps => Except.ok deps
  | d :: rest, deps =>
      let dep := pyStripS d
      if dep = "" then parseGo reg rest deps
      else
        match pySplitS '=' dep with
        | [api_str, provider0] =>
            if listContains reg.apiNames api_str then
              match alist_lookup reg.providers api_str with
              | none => Except.error (ParseError.internalFault ("KeyError: " ++ api_str))
              | some provs =>
                  match alist_lookup provs (pyStripS provider0) with
                  | none => Except.error (ParseError.usageError
                      ("Provider `" ++ pyStripS provider0 ++ "` is not available for API `"
                        ++ api_str ++ "`"))
                  | some spec => parseGo reg rest (dictInsert api_str spec deps)
            else Except.error (ParseError.internalFault
                ("ValueError: " ++ api_str ++ " is not a valid Api"))
        | _ => Except.error (ParseError.internalFault
            "ValueError: wrong number of values to unpack")

/-- `parse_dependencies(dependencies, parser)`: split the string on commas and
process the entries in order. -/
def parse_dependencies (reg : Registry) (dependencies : String) :
    Except ParseError (List (String × ProviderSpec)) :=
  parseGo reg (pySplitS ',' dependencies) []

/-- A concrete registered spec for provider `p1` of API `a`. -/
def specP1 : ProviderSpec := ProviderSpec.inline ["pkgP1"] none

/-- A concrete registered spec for provider `p2` of API `b`. -/
def specP2 : ProviderSpec := ProviderSpec.inline ["pkgP2"] none

/-- A concrete registry with APIs `a` and `b`, provider `p1` registered for
`a` and `p2` for `b`. -/
def reg0 : Registry :=
  { apiNames := ["a", "b"],
    providers := [("a", [("p1", specP1)]), ("b", [("p2", specP2)])] }

/-- C4: parsing splits on commas, skips entries blank after trimming, trims
each entry and the provider id, and preserves the listed order; in particular
`"a=p1,, b=p2 "` against `reg0` yields `[(a, p1-spec), (b, p2-spec)]`, and
listing the pairs the other way round yields them the other way round. -/
theorem parse_example :
    parse_dependencies reg0 "a=p1,, b=p2 " = Except.ok [("a", specP1), ("b", specP2)]
    ∧ parse_dependencies reg0 " b=p2 ,,a=p1" = Except.ok [("b", specP2), ("a", specP1)] := by
  exact ⟨by rfl, by rfl⟩

/-- Counterexample to C5: an entry whose left side (`c`) is not a known API
name makes `parse_dependencies` raise an uncaught `ValueError` from
`Api(api_str)` — an internal fault, not a usage error reported to the user as
the claim requires. -/
theorem parse_unknown_api_is_internal_fault :
    parse_dependencies reg0 "c=p9,a=p1"
      = Except.error (ParseError.internalFault "ValueError: c is not a valid Api")
    ∧ reportedAsUsage (parse_dependencies reg0 "c=p9,a=p1") = false := by
  exact ⟨by rfl, by rfl⟩

/-- C5 (amended): an entry whose right side is not a provider registered for
its (known) API stops processing at that entry with a usage error reported to
the user; an entry whose left side is not a known API name also stops
processing there, but with an internal fault (an uncaught `ValueError`), not a
usage error.  Later entries are never examined: the result does not depend on
`rest`. -/
theorem parse_stops_at_first_invalid (reg : Registry) (deps : List (String × ProviderSpec))
    (e : String) (rest : List String) (a p : String)
    (h1 : pySplitS '=' (pyStripS e) = [a, p]) :
    (listContains reg.apiNames a = false →
      parseGo reg (e :: rest) deps
        = Except.error (ParseError.internalFault
            ("ValueError: " ++ a ++ " is not a valid Api")))
    ∧ (∀ provs, listContains reg.apiNames a = true →
        alist_lookup reg.providers a = some provs →
        alist_lookup provs (pyStripS p) = none →
        parseGo reg (e :: rest) deps
          = Except.error (ParseError.usageError
              ("Provider `" ++ pyStripS p ++ "` is not available for API `" ++ a ++ "`"))) := by
  have hne : ¬ pyStripS e = "" := by
    intro hs
    rw [hs] at h1
    simp [pySplitS, pySplit] at h1
  constructor
  · intro hnot
    simp [parseGo, if_neg hne, h1, hnot]
  · intro provs hmem hprov hnone
    simp [parseGo, if_neg hne, h1, hmem, hprov, hnone]

/-- Witness for the amended C5: with registry `reg0`, the entry `a=zz` (known
API `a`, unregistered provider `zz`) stops processing with the usage error,
the later entry `b=p2` never examined. -/
theorem parse_stops_at_first_invalid_witness :
    parseGo reg0 ["a=zz", "b=p2"] []
      = Except.error (ParseError.usageError "Provider `zz` is not available for API `a`") :=
  (parse_stops_at_first_invalid reg0 [] "a=zz" ["b=p2"] "a" "zz" (by rfl)).2
    [("p1", specP1)] (by rfl) (by rfl) (by rfl)

/-- The `BuildType` enum of the source (`container` / `conda_env`, the latter
being the spec's "isolated environment" kind). -/
inductive BuildType where
  | container
  | conda_env
deriving DecidableEq

/-- Python `str.replace("::", "-")`: scan left to right, replace each
non-overlapping occurrence of `::` with `-`. -/
def replaceColons : List Char → List Char
  | [] => []
  | [c] => [c]
  | c1 :: c2 :: rest =>
      if c1 = ':' && c2 = ':' then '-' :: replaceColons rest
      else c1 :: replaceColons (c2 :: rest)

/-- The package name derived in `_run_api_build_command`: the f-string
`image-{provider}-{name}` or `env-{provider}-{name}` by build type, then
`.replace("::", "-")`. -/
def package_name (ty : BuildType) (provider name : String) : String :=
  let base := (match ty with
    | BuildType.container => "image-"
    | BuildType.conda_env => "env-") ++ provider ++ "-" ++ name
  String.mk (replaceColons base.data)

/-- C6: the derived package name is the kind prefix, provider id, `-`, name,
with every occurrence of `::` then replaced by `-`; in particular provider
`foo::bar`, name `baz`, kind container yields `image-foo-bar-baz` (and kind
isolated-environment yields `env-foo-bar-baz`, and every one of several `::`
occurrences is replaced). -/
theorem package_name_examples :
    package_name BuildType.container "foo::bar" "baz" = "image-foo-bar-baz"
    ∧ package_name BuildType.conda_env "foo::bar" "baz" = "env-foo-bar-baz"
    ∧ package_name BuildType.container "a::b::c" "d" = "image-a-b-c-d" := by
  exact ⟨by rfl, by rfl, by rfl⟩

/-- The descriptor record written to the build file, from the source's
`PackageConfig(...)` construction in `_run_api_build_command` (field types of
`PackageConfig` itself live in `datatypes.py`; the construction here fixes
them).  `built_at` is an opaque timestamp. -/
structure PackageConfig where
  built_at : Nat
  package_name : String
  docker_image : Option String
  conda_env : Option String
  providers : List (String × String)
deriving DecidableEq

/-- The `PackageConfig(...)` call: `docker_image` is the package name exactly
for a container build, `conda_env` is the package name exactly for a conda-env
build, the other one `None`. -/
def mkPackageConfig (ty : BuildType) (built_at : Nat) (pkg : String)
    (provs : List (String × String)) : PackageConfig :=
  { built_at := built_at,
    package_name := pkg,
    docker_image := if ty = BuildType.container then some pkg else none,
    conda_env := if ty = BuildType.conda_env then some pkg else none,
    providers := provs }

/-- Modelled from the spec: pydantic `.dict()` plus `yaml.dump(sort_keys=False)`
emit every declared field in declaration order, an absent optional field as
null; this lists the serialized key/value pairs of a descriptor. -/
def serializeDescriptor (c : PackageConfig) : List (String × Option String) :=
  [("built_at", some (toString c.built_at)),
   ("package_name", some c.package_name),
   ("docker_image", c.docker_image),
   ("conda_env", c.conda_env),
   ("providers", some (String.intercalate "," (c.providers.map Prod.fst)))]

/-- C7: the written descriptor for a container build has its image field equal
to the derived package name and its environment field null, and the descriptor
for an isolated-environment build is the mirror image; both fields are present
in the serialized document in either case. -/
theorem descriptor_image_env_fields (built_at : Nat) (pkg : String)
    (provs : List (String × String)) :
    ((mkPackageConfig BuildType.container built_at pkg provs).docker_image = some pkg
      ∧ (mkPackageConfig BuildType.container built_at pkg provs).conda_env = none)
    ∧ ((mkPackageConfig BuildType.conda_env built_at pkg provs).docker_image = none
      ∧ (mkPackageConfig BuildType.conda_env built_at pkg provs).conda_env = some pkg)
    ∧ (∀ ty, alist_lookup (serializeDescriptor (mkPackageConfig ty built_at pkg provs))
          "docker_image" = some (mkPackageConfig ty built_at pkg provs).docker_image
        ∧ alist_lookup (serializeDescriptor (mkPackageConfig ty built_at pkg provs))
          "conda_env" = some (mkPackageConfig ty built_at pkg provs).conda_env) := by
  refine ⟨⟨rfl, rfl⟩, ⟨rfl, rfl⟩, fun ty => ⟨rfl, rfl⟩⟩

/-- The builtin default base image of container builds. -/
def defaultBaseImage : String := "python:3.10-slim"

/-- The resource path of the container build script. -/
def containerScript : String := "distribution/build_container.sh"

/-- The resource path of the conda-env build script. -/
def condaScript : String := "distribution/build_conda_env.sh"

/-- Python `x or d` on an `Optional[str]`: the default replaces both `None`
and `""`. -/
def pythonOrDefault (o : Option String) (d : String) : String :=
  match o with
  | some s => if s = "" then d else s
  | none => d

/-- The argument vector handed to `run_with_pty` in `_run_api_build_command`:
script path, API name, package name, then for a container build
`dependencies.docker_image or "python:3.10-slim"`, and finally
`" ".join(dependencies.pip_packages)`. -/
def invoker_args (ty : BuildType) (api pkg : String) (deps : Dependencies) :
    List String :=
  match ty with
  | BuildType.container =>
      [containerScript, api, pkg, pythonOrDefault deps.docker_image defaultBaseImage,
       String.intercalate " " deps.pip_packages]
  | BuildType.conda_env =>
      [condaScript, api, pkg, String.intercalate " " deps.pip_packages]

/-- C8: a container build invokes the build script with positional arguments
API name, package name, the merge result's image (the builtin default
`python:3.10-slim` when the merge yielded none), and the space-joined package
requirements, in that order; a conda-env (isolated-environment) build passes
the same arguments without the base-image one. -/
theorem invoker_args_shape (api pkg : String) (deps : Dependencies) :
    (deps.docker_image = none →
      invoker_args BuildType.container api pkg deps
        = [containerScript, api, pkg, defaultBaseImage,
           String.intercalate " " deps.pip_packages])
    ∧ (∀ img, deps.docker_image = some img → ¬ img = "" →
      invoker_args BuildType.container api pkg deps
        = [containerScript, api, pkg, img, String.intercalate " " deps.pip_packages])
    ∧ invoker_args BuildType.conda_env api pkg deps
        = [condaScript, api, pkg, String.intercalate " " deps.pip_packages] := by
  refine ⟨fun h => ?_, fun img h hne => ?_, rfl⟩
  · simp [invoker_args, pythonOrDefault, h]
  · simp [invoker_args, pythonOrDefault, h, hne]

/-- Witness for C8 at a concrete input: a merge result with image `base` and
packages `p1 p2` gives the five-element container argument vector. -/
theorem invoker_args_shape_witness :
    invoker_args BuildType.container "inference" "pkg"
        (Dependencies.mk ["p1", "p2"] (some "base"))
      = [containerScript, "inference", "pkg", "base", "p1 p2"] :=
  (invoker_args_shape "inference" "pkg"
    (Dependencies.mk ["p1", "p2"] (some "base"))).2.1 "base" rfl (by decide)

/-- What the tail of `_run_api_build_command` does after `run_with_pty`
returns: `fatalAssert` models the failed `assert return_code == 0` (its
message expression prints the red failure line naming the build target, then
an `AssertionError` aborts); `nameError` models an uncaught `NameError` on an
unbound variable; `printed` models the green success line. -/
inductive RunOutcome where
  | fatalAssert (msg : String)
  | nameError (ident : String)
  | printed (msg : String)
deriving DecidableEq

/-- The source's final block: on a nonzero exit code the assert fails, after
printing `Failed to build target {package_name}`; on exit code 0 the success
`cprint` references `target_name`, a variable never assigned anywhere in the
function, so a `NameError` is raised before anything is printed. -/
def report_outcome (return_code : Int) (pkg : String) : RunOutcome :=
  if return_code = 0 then RunOutcome.nameError "target_name"
  else RunOutcome.fatalAssert ("Failed to build target " ++ pkg)

/-- C9 names intended behavior the code misses: on exit code 0 the command
raises a `NameError` on the unassigned `target_name` instead of printing the
package name and descriptor path; on a nonzero exit it does report a fatal
failure naming the build target (and, the invocation being straight-line,
never invokes the build process a second time). -/
theorem report_outcome_eval :
    report_outcome 0 "pkg" = RunOutcome.nameError "target_name"
    ∧ report_outcome 1 "pkg" = RunOutcome.fatalAssert "Failed to build target pkg" := by
  exact ⟨rfl, rfl⟩
